import Mathlib

/-!
Verification of the Smart-Home Device Monitoring System
(`src/pythonproj.py`) as a shallow embedding in Lean 4.

Python numbers are embedded as exact rationals (`ℚ`); Python's
`round(x, 1)` (banker's rounding to one decimal) is `round1`;
dict `.get(k, d)` on an optional field is `Option.getD`;
`random.uniform` draws become explicit parameters of the state
transition functions.
-/

namespace SmartHome

/-- A `StatusUpdate` record as produced by `send_update`: identity
fields plus the kind-specific fields merged in by `_get_status`.
Fields that a given device kind does not produce are `none`. -/
structure Update where
  device_id : String := ""
  name : String := ""
  location : String := ""
  device_type : String
  timestamp : String := ""
  is_on : Option Bool := none
  brightness : Option ℚ := none
  current_temp : Option ℚ := none
  target_temp : Option ℚ := none
  humidity : Option ℚ := none
  motion_detected : Option Bool := none
  battery_level : Option ℚ := none
  last_snapshot : Option String := none
  deriving DecidableEq, Repr

/-- The summary dict returned by `process_analytics`. -/
structure AnalyticsSummary where
  avg_temp : ℚ
  critical_count : ℕ
  total_brightness : ℚ
  avg_battery : ℚ
  total_updates : ℕ
  deriving DecidableEq, Repr

/-- Python 3 `round(x)` on an exact rational: nearest integer,
ties to the even integer (banker's rounding). -/
def pyRound (x : ℚ) : ℤ :=
  let f := ⌊x⌋
  let frac := x - f
  if frac < 1/2 then f
  else if 1/2 < frac then f + 1
  else if f % 2 = 0 then f else f + 1

/-- Python 3 `round(x, 1)`: rounding to one decimal place. -/
def round1 (x : ℚ) : ℚ := (pyRound (10 * x) : ℚ) / 10

/-- The temperature extraction of `process_analytics`:
`map (λ u, u.get('current_temp', 0)) (filter (λ u, u['device_type'] == 'THERMOSTAT') updates)`. -/
def temps_of (updates : List Update) : List ℚ :=
  (updates.filter (fun u => u.device_type == "THERMOSTAT")).map
    (fun u => u.current_temp.getD 0)

/-- The critical-event predicate of `process_analytics`:
a thermostat update with `current_temp` (default 0) above 30, or a
camera update with `battery_level` (default 100) below 10. -/
def is_critical (u : Update) : Bool :=
  (u.device_type == "THERMOSTAT" && u.current_temp.getD 0 > 30) ||
  (u.device_type == "CAMERA" && u.battery_level.getD 100 < 10)

/-- The brightness extraction of `process_analytics`: brightness
(default 0) of every bulb update whose `is_on` field is truthy. -/
def brightness_vals_of (updates : List Update) : List ℚ :=
  (updates.filter (fun u => u.device_type == "BULB" && u.is_on.getD false)).map
    (fun u => u.brightness.getD 0)

/-- The battery extraction of `process_analytics`: battery level
(default 0) of every camera update. -/
def battery_vals_of (updates : List Update) : List ℚ :=
  (updates.filter (fun u => u.device_type == "CAMERA")).map
    (fun u => u.battery_level.getD 0)

/-- `process_analytics` (src/pythonproj.py lines 175-205): the pure
map/filter/reduce analytics pass. Empty filtered subsets yield a 0
average via the `if temps else 0` guard. -/
def process_analytics (updates : List Update) : AnalyticsSummary :=
  let temps := temps_of updates
  let critical := updates.filter is_critical
  let avg_temp : ℚ := if temps ≠ [] then temps.foldl (· + ·) 0 / temps.length else 0
  let brightness_vals := brightness_vals_of updates
  let total_brightness : ℚ := brightness_vals.foldl (· + ·) 0
  let battery_vals := battery_vals_of updates
  let avg_battery : ℚ :=
    if battery_vals ≠ [] then battery_vals.foldl (· + ·) 0 / battery_vals.length else 0
  { avg_temp := round1 avg_temp
    critical_count := critical.length
    total_brightness := total_brightness
    avg_battery := round1 avg_battery
    total_updates := updates.length }

/-! ### Device layer (the OOP classes of src/pythonproj.py) -/

/-- `SmartBulb` state: identity fields from `SmartDevice.__init__`,
plus `is_on` and the private `_brightness` backing field. -/
structure SmartBulb where
  device_id : String
  name : String
  location : String
  is_connected : Bool := false
  is_on : Bool := false
  bright : ℚ := 0
  deriving DecidableEq, Repr

/-- The `brightness` property getter. -/
def SmartBulb.brightness (b : SmartBulb) : ℚ := b.bright

/-- The `brightness` property setter (lines 57-64): clamps the written
value into [0, 100]. -/
def SmartBulb.setBrightness (b : SmartBulb) (value : ℚ) : SmartBulb :=
  if value < 0 then { b with bright := 0 }
  else if value > 100 then { b with bright := 100 }
  else { b with bright := value }

/-- `SmartThermostat` state.  `current_temp` is seeded randomly in
`__init__`; here it is simply a field of the state. -/
structure SmartThermostat where
  device_id : String
  name : String
  location : String
  is_connected : Bool := false
  current_temp : ℚ
  target_temp : ℚ := 22
  humidity : ℚ := 50
  deriving DecidableEq, Repr

/-- `SmartCamera` state with the private `_battery_level` backing field. -/
structure SmartCamera where
  device_id : String
  name : String
  location : String
  is_connected : Bool := false
  motion_detected : Bool := false
  battery : ℚ := 100
  last_snapshot : Option String := none
  deriving DecidableEq, Repr

/-- The `battery_level` property getter. -/
def SmartCamera.battery_level (c : SmartCamera) : ℚ := c.battery

/-- The `battery_level` property setter (lines 111-118): clamps the
written value into [0, 100]. -/
def SmartCamera.setBatteryLevel (c : SmartCamera) (value : ℚ) : SmartCamera :=
  if value < 0 then { c with battery := 0 }
  else if value > 100 then { c with battery := 100 }
  else { c with battery := value }

/-- Keyword arguments of `execute_command` (`kwargs`); only the
`brightness` key is ever consulted, by `SmartBulb.execute_command`. -/
structure CmdArgs where
  brightness : Option ℚ := none
  deriving DecidableEq, Repr

/-- `SmartBulb.execute_command` (lines 69-73): `turn_on` sets the bulb
on and writes `kwargs.get("brightness", 100)` through the clamping
setter; any other command does nothing. -/
def SmartBulb.execute_command (b : SmartBulb) (command : String) (kwargs : CmdArgs) :
    SmartBulb :=
  if command == "turn_on" then
    ({ b with is_on := true }).setBrightness (kwargs.brightness.getD 100)
  else b

/-- `SmartThermostat.execute_command` (lines 92-96): `cool_down` resets
both temperatures to the 22.0 baseline; any other command does nothing. -/
def SmartThermostat.execute_command (t : SmartThermostat) (command : String) :
    SmartThermostat :=
  if command == "cool_down" then { t with current_temp := 22, target_temp := 22 }
  else t

/-- `SmartCamera.execute_command` (lines 137-140): `snapshot` stamps
`last_snapshot` with the current time (`now`, an explicit parameter of
the embedding); any other command does nothing. -/
def SmartCamera.execute_command (c : SmartCamera) (command : String) (now : String) :
    SmartCamera :=
  if command == "snapshot" then { c with last_snapshot := some now }
  else c

/-- A device of the three concrete kinds. -/
inductive Device where
  | bulb (b : SmartBulb)
  | thermostat (t : SmartThermostat)
  | camera (c : SmartCamera)
  deriving DecidableEq, Repr

/-- The `device_type` tag: assigned once per concrete class in
`__init__` and never reassigned. -/
def Device.device_type : Device → String
  | .bulb _ => "BULB"
  | .thermostat _ => "THERMOSTAT"
  | .camera _ => "CAMERA"

/-- Polymorphic `execute_command` dispatch. -/
def Device.execute_command (d : Device) (command : String) (kwargs : CmdArgs)
    (now : String) : Device :=
  match d with
  | .bulb b => .bulb (b.execute_command command kwargs)
  | .thermostat t => .thermostat (t.execute_command command)
  | .camera c => .camera (c.execute_command command now)

/-- `SmartCamera._get_status` (lines 120-135).  The two random draws
are explicit parameters: `motion` is the outcome of
`random.random() < 0.15` and `drain` the `random.uniform(5, 12)` draw;
`now` is the timestamp taken when motion fires.  Returns the mutated
camera and the status fields merged into the update. -/
def SmartCamera.getStatus (c : SmartCamera) (motion : Bool) (drain : ℚ)
    (now : String) : SmartCamera × Update :=
  let c1 := { c with motion_detected := motion }
  let c2 := c1.setBatteryLevel (c1.battery_level - drain)
  let c3 := if motion then
      let cm := { c2 with last_snapshot := some now }
      cm.setBatteryLevel (cm.battery_level - 10)
    else c2
  (c3, { device_type := "CAMERA"
         motion_detected := some c3.motion_detected
         battery_level := some (round1 c3.battery_level)
         last_snapshot := c3.last_snapshot })

/-- `SmartBulb._get_status` (lines 66-67): a pure read. -/
def SmartBulb.getStatus (b : SmartBulb) : Update :=
  { device_type := "BULB", is_on := some b.is_on, brightness := some b.brightness }

/-- `SmartThermostat._get_status` (lines 84-90): drifts `current_temp`
by the `random.uniform(-1, 2)` draw (parameter `drift`), then reports. -/
def SmartThermostat.getStatus (t : SmartThermostat) (drift : ℚ) :
    SmartThermostat × Update :=
  let t1 := { t with current_temp := t.current_temp + drift }
  (t1, { device_type := "THERMOSTAT"
         current_temp := some (round1 t1.current_temp)
         target_temp := some t1.target_temp
         humidity := some (round1 t1.humidity) })

/-! ### Device loop driver (lines 144-165) -/

/-- An alert signal printed by the device loop. -/
inductive Alert where
  | high_temp
  | motion
  | low_battery
  deriving DecidableEq, Repr

/-- The alert-handling block of `device_loop` (lines 153-162), applied
to a device and the update it just produced.  The high-temperature
check issues `cool_down` on the device; the motion and low-battery
checks only print.  (In the source the update's `current_temp`,
`motion_detected` and `battery_level` entries are read directly; they
are always present on the update the guarding device kind produced, so
missing fields are read through their `none` defaults here.) -/
def device_loop_alerts (d : Device) (u : Update) : Device × List Alert :=
  let hot := d.device_type == "THERMOSTAT" && u.current_temp.getD 0 > 30
  let d1 := if hot then d.execute_command "cool_down" {} "" else d
  let a1 : List Alert := if hot then [.high_temp] else []
  let a2 : List Alert :=
    if d.device_type == "CAMERA" && u.motion_detected.getD false then [.motion] else []
  let a3 : List Alert :=
    if d.device_type == "CAMERA" && u.battery_level.getD 0 < 10 then [.low_battery] else []
  (d1, a1 ++ a2 ++ a3)

/-- One `device_loop` iteration body after the sleep, with the snapshot
step abstracted as an `Except`-valued input (`send_update` may raise).
There is no `try`/`except` in the loop body (lines 146-165): any
exception simply propagates out. -/
def device_loop_body (snap : Except String Update) (d : Device) :
    Except String (Device × Update) := do
  let u ← snap
  let (d1, _) := device_loop_alerts d u
  pure (d1, u)

/-- The Reporting step of `main` (lines 260-268): the analytics summary
is computed and printed only under `if updates:`; `none` models a run
in which nothing is printed after the header. -/
def report_analytics (updates : List Update) : Option AnalyticsSummary :=
  if updates.isEmpty then none else some (process_analytics updates)

/-! ### Helper lemmas -/

/-- The bulb brightness setter stores the clamp of the written value. -/
theorem setBrightness_eq_clamp (b : SmartBulb) (v : ℚ) :
    (b.setBrightness v).brightness = max 0 (min 100 v) := by
  unfold SmartBulb.setBrightness
  split_ifs with h1 h2 <;>
    simp only [SmartBulb.brightness, max_def, min_def] <;> split_ifs <;> linarith

/-- The camera battery setter stores the clamp of the written value. -/
theorem setBatteryLevel_eq_clamp (c : SmartCamera) (v : ℚ) :
    (c.setBatteryLevel v).battery_level = max 0 (min 100 v) := by
  unfold SmartCamera.setBatteryLevel
  split_ifs with h1 h2 <;>
    simp only [SmartCamera.battery_level, max_def, min_def] <;> split_ifs <;> linarith

/-- Clamped values lie in [0, 100]. -/
theorem clamp_mem_Icc (v : ℚ) : 0 ≤ max 0 (min 100 v) ∧ max 0 (min 100 v) ≤ 100 :=
  ⟨le_max_left _ _, max_le (by norm_num) (min_le_left _ _)⟩

/-- Clamping a downward-moved nonnegative value never increases it. -/
theorem clamp_sub_le (b d : ℚ) (hb : 0 ≤ b) (hd : 0 ≤ d) :
    max 0 (min 100 (b - d)) ≤ b :=
  max_le hb (le_trans (min_le_right _ _) (by linarith))

/-- Restatement of the battery clamp on the raw backing field. -/
theorem setBatteryLevel_battery (c : SmartCamera) (v : ℚ) :
    (c.setBatteryLevel v).battery = max 0 (min 100 v) :=
  setBatteryLevel_eq_clamp c v

/-- The camera state after `_get_status`: the battery field is the
doubly-clamped drained value. -/
theorem getStatus_battery (c : SmartCamera) (motion : Bool) (drain : ℚ) (now : String) :
    (c.getStatus motion drain now).1.battery_level =
      if motion then max 0 (min 100 (max 0 (min 100 (c.battery_level - drain)) - 10))
      else max 0 (min 100 (c.battery_level - drain)) := by
  cases motion <;>
    simp [SmartCamera.getStatus, setBatteryLevel_battery, SmartCamera.battery_level]

/-! ### Claims -/

/-- C2: for every value v written to a bulb's brightness or a camera's
battery_level, the stored value afterwards equals max(0, min(100, v)):
out-of-range writes saturate to [0, 100] and never raise an error. -/
theorem C2_clamped_writes (b : SmartBulb) (c : SmartCamera) (v : ℚ) :
    (b.setBrightness v).brightness = max 0 (min 100 v) ∧
    (c.setBatteryLevel v).battery_level = max 0 (min 100 v) :=
  ⟨setBrightness_eq_clamp b v, setBatteryLevel_eq_clamp c v⟩

/-- C9: the camera battery level is monotonically non-increasing under
snapshots (given the [5,12) drain draw and a battery that starts
nonnegative) and stays within [0, 100]; execute_command never changes
it. -/
theorem C9_battery_monotone (c : SmartCamera) (motion : Bool) (drain : ℚ)
    (now command now2 : String) (h0 : 0 ≤ c.battery_level)
    (h5 : 5 ≤ drain) (_h12 : drain < 12) :
    (c.getStatus motion drain now).1.battery_level ≤ c.battery_level ∧
    0 ≤ (c.getStatus motion drain now).1.battery_level ∧
    (c.getStatus motion drain now).1.battery_level ≤ 100 ∧
    (c.execute_command command now2).battery_level = c.battery_level := by
  have hcmd : (c.execute_command command now2).battery_level = c.battery_level := by
    unfold SmartCamera.execute_command
    split_ifs <;> rfl
  rw [getStatus_battery]
  obtain ⟨hA0, hA100⟩ := clamp_mem_Icc (c.battery_level - drain)
  have hAle : max 0 (min 100 (c.battery_level - drain)) ≤ c.battery_level :=
    clamp_sub_le _ _ h0 (by linarith)
  obtain ⟨hB0, hB100⟩ := clamp_mem_Icc (max 0 (min 100 (c.battery_level - drain)) - 10)
  have hBle : max 0 (min 100 (max 0 (min 100 (c.battery_level - drain)) - 10)) ≤
      max 0 (min 100 (c.battery_level - drain)) :=
    clamp_sub_le _ _ hA0 (by norm_num)
  cases motion <;> simp only [if_true, if_false, Bool.false_eq_true, ite_true, ite_false] <;>
    exact ⟨by linarith, by linarith, by linarith, hcmd⟩

/-- Witness for C9 at a concrete camera. -/
theorem C9_battery_monotone_witness :
    let cam : SmartCamera := { device_id := "c1", name := "Smart Camera", location := "Entrance" }
    (cam.getStatus true 6 "t1").1.battery_level ≤ cam.battery_level ∧
    0 ≤ (cam.getStatus true 6 "t1").1.battery_level ∧
    (cam.getStatus true 6 "t1").1.battery_level ≤ 100 ∧
    (cam.execute_command "snapshot" "t2").battery_level = cam.battery_level :=
  C9_battery_monotone _ true 6 "t1" "snapshot" "t2"
    (by norm_num [SmartCamera.battery_level]) (by norm_num) (by norm_num)

/-- C1: on the concrete four-update list of the spec, process_analytics
returns avg_temp = 30.0, critical_count = 2, total_brightness = 80,
avg_battery = 5.0 and total_updates = 4. -/
theorem C1_analytics_concrete :
    process_analytics [
      { device_type := "THERMOSTAT", current_temp := some 28 },
      { device_type := "THERMOSTAT", current_temp := some 32 },
      { device_type := "CAMERA", battery_level := some 5 },
      { device_type := "BULB", is_on := some true, brightness := some 80 }] =
    { avg_temp := 30, critical_count := 2, total_brightness := 80,
      avg_battery := 5, total_updates := 4 } := by
  simp only [process_analytics, temps_of, is_critical, brightness_vals_of, battery_vals_of,
    List.filter, List.map, List.foldl, List.length]
  norm_num [round1, pyRound, List.cons_ne_nil, Int.fract]

/-- C4: process_analytics on the empty list is the zero summary, and
whenever a filtered subset (thermostat temperatures, camera batteries)
is empty the corresponding average is 0, with no division error. -/
theorem C4_empty_aggregation :
    process_analytics [] =
      { avg_temp := 0, critical_count := 0, total_brightness := 0, avg_battery := 0,
        total_updates := 0 } ∧
    ∀ updates : List Update,
      (temps_of updates = [] → (process_analytics updates).avg_temp = 0) ∧
      (battery_vals_of updates = [] → (process_analytics updates).avg_battery = 0) := by
  have hz : round1 0 = 0 := by norm_num [round1, pyRound]
  refine ⟨?_, fun updates => ⟨fun ht => ?_, fun hb => ?_⟩⟩
  · simp only [process_analytics, temps_of, is_critical, brightness_vals_of, battery_vals_of,
      List.filter, List.map, List.foldl, List.length]
    norm_num [round1, pyRound]
  · simp [process_analytics, ht, hz]
  · simp [process_analytics, hb, hz]

/-- Witness for C4: the empty list, and a bulb-only list whose
thermostat and camera subsets are both empty. -/
theorem C4_empty_aggregation_witness :
    process_analytics [] =
      { avg_temp := 0, critical_count := 0, total_brightness := 0, avg_battery := 0,
        total_updates := 0 } ∧
    (process_analytics
      [{ device_type := "BULB", is_on := some true, brightness := some 80 }]).avg_temp = 0 ∧
    (process_analytics
      [{ device_type := "BULB", is_on := some true, brightness := some 80 }]).avg_battery = 0 :=
  ⟨C4_empty_aggregation.1,
   (C4_empty_aggregation.2 _).1 (by simp [temps_of, List.filter]),
   (C4_empty_aggregation.2 _).2 (by simp [battery_vals_of, List.filter])⟩

/-- C10: updates that carry a device_type but lack kind-specific
fields get asymmetric defaults: a thermostat update without
current_temp contributes a 0 entry to the temperature list and is never
critical; a camera update without battery_level contributes a 0 entry
to the battery list yet is never critical (the critical check defaults
it to 100); a bulb update without is_on, or with is_on false, is
excluded from the brightness sum. -/
theorem C10_missing_field_defaults (u v w : Update) (rest : List Update) :
    (u.device_type = "THERMOSTAT" → u.current_temp = none →
      temps_of (u :: rest) = 0 :: temps_of rest ∧ is_critical u = false) ∧
    (v.device_type = "CAMERA" → v.battery_level = none →
      battery_vals_of (v :: rest) = 0 :: battery_vals_of rest ∧ is_critical v = false) ∧
    (w.device_type = "BULB" → (w.is_on = none ∨ w.is_on = some false) →
      brightness_vals_of (w :: rest) = brightness_vals_of rest) := by
  refine ⟨fun h1 h2 => ⟨?_, ?_⟩, fun h1 h2 => ⟨?_, ?_⟩, fun h1 h2 => ?_⟩
  · simp [temps_of, List.filter, h1, h2]
  · norm_num [is_critical, h1, h2]
    exact fun hx => absurd hx (by decide)
  · simp [battery_vals_of, List.filter, h1, h2]
  · norm_num [is_critical, h1, h2]
    exact fun hx => absurd hx (by decide)
  · rcases h2 with h2 | h2 <;> simp [brightness_vals_of, List.filter, h1, h2]

/-- Witness for C10 at concrete field-less updates. -/
theorem C10_missing_field_defaults_witness :
    (temps_of [{ device_type := "THERMOSTAT" }] = 0 :: temps_of [] ∧
      is_critical { device_type := "THERMOSTAT" } = false) ∧
    (battery_vals_of [{ device_type := "CAMERA" }] = 0 :: battery_vals_of [] ∧
      is_critical { device_type := "CAMERA" } = false) ∧
    brightness_vals_of [{ device_type := "BULB" }] = brightness_vals_of [] := by
  have h := C10_missing_field_defaults { device_type := "THERMOSTAT" }
    { device_type := "CAMERA" } { device_type := "BULB" } []
  exact ⟨h.1 rfl rfl, h.2.1 rfl rfl, h.2.2 rfl (Or.inl rfl)⟩

/-- C3: in the alert-handling block, only the high-temperature
condition (thermostat update with current_temp above 30) mutates any
device state, by issuing cool_down which resets both temperatures to
the 22.0 baseline; every other combination (including camera motion and
low-battery alerts) leaves the device unchanged. -/
theorem C3_alert_side_effects (d : Device) (u : Update) :
    (¬ (d.device_type = "THERMOSTAT" ∧ u.current_temp.getD 0 > 30) →
      (device_loop_alerts d u).1 = d) ∧
    (∀ t : SmartThermostat, d = Device.thermostat t → u.current_temp.getD 0 > 30 →
      (device_loop_alerts d u).1 =
        Device.thermostat { t with current_temp := 22, target_temp := 22 }) := by
  constructor
  · intro h
    have hot : (d.device_type == "THERMOSTAT" && decide (u.current_temp.getD 0 > 30))
        = false := by
      rcases Decidable.em (d.device_type = "THERMOSTAT") with ht | ht
      · have hn : ¬ u.current_temp.getD 0 > 30 := fun hgt => h ⟨ht, hgt⟩
        simp [hn]
      · simp [ht]
    simp [device_loop_alerts, hot]
  · rintro t rfl hgt
    simp [device_loop_alerts, Device.device_type, hgt, Device.execute_command,
      SmartThermostat.execute_command]

/-- Witness for C3: a camera update with motion and low battery leaves
the camera untouched; a hot thermostat update resets the thermostat. -/
theorem C3_alert_side_effects_witness :
    (device_loop_alerts
        (Device.camera { device_id := "c1", name := "Smart Camera", location := "Entrance" })
        { device_type := "CAMERA", motion_detected := some true,
          battery_level := some 5 }).1 =
      Device.camera { device_id := "c1", name := "Smart Camera", location := "Entrance" } ∧
    (device_loop_alerts
        (Device.thermostat
          { device_id := "t1", name := "Smart Thermostat", location := "Main Room", current_temp := 35 })
        { device_type := "THERMOSTAT", current_temp := some 35 }).1 =
      Device.thermostat
        { device_id := "t1", name := "Smart Thermostat", location := "Main Room", current_temp := 22, target_temp := 22 } :=
  ⟨(C3_alert_side_effects _ _).1 (fun hc => absurd hc.1 (by decide)),
   (C3_alert_side_effects _ _).2 _ rfl (by norm_num [Option.getD])⟩

/-- The command names each concrete class recognizes in its
execute_command. -/
def recognized_commands : Device → List String
  | .bulb _ => ["turn_on"]
  | .thermostat _ => ["cool_down"]
  | .camera _ => ["snapshot"]

/-- C5: executing a command name that the device's kind does not
recognize leaves the device's entire state unchanged, with no error. -/
theorem C5_unrecognized_command_noop (d : Device) (command : String) (kwargs : CmdArgs)
    (now : String) (h : command ∉ recognized_commands d) :
    d.execute_command command kwargs now = d := by
  cases d with
  | bulb b =>
    simp only [recognized_commands, List.mem_singleton] at h
    simp [Device.execute_command, SmartBulb.execute_command, h]
  | thermostat t =>
    simp only [recognized_commands, List.mem_singleton] at h
    simp [Device.execute_command, SmartThermostat.execute_command, h]
  | camera c =>
    simp only [recognized_commands, List.mem_singleton] at h
    simp [Device.execute_command, SmartCamera.execute_command, h]

/-- Witness for C5: the bulb ignores the thermostat's cool_down. -/
theorem C5_unrecognized_command_noop_witness :
    (Device.bulb
        { device_id := "b1", name := "Smart Bulb", location := "Living Room" }).execute_command "cool_down" {} "t" =
      Device.bulb { device_id := "b1", name := "Smart Bulb", location := "Living Room" } :=
  C5_unrecognized_command_noop _ "cool_down" {} "t" (by decide)

/-- C6 counterexample: in the run where no updates were ever produced
the Reporting step emits nothing at all, not a zeroed summary. -/
theorem C6_counterexample_empty_run : report_analytics [] = none := rfl

/-- C6 (amended): the Reporting step invokes the aggregator and emits
its summary exactly when the accumulator is nonempty; an empty run
emits no summary. -/
theorem C6_reporting_emits_iff_nonempty (updates : List Update) (h : updates ≠ []) :
    report_analytics updates = some (process_analytics updates) := by
  simp [report_analytics, h]

/-- Witness for C6 (amended) at a one-update accumulator. -/
theorem C6_reporting_emits_iff_nonempty_witness :
    report_analytics [{ device_type := "BULB", is_on := some true, brightness := some 80 }] =
      some (process_analytics
        [{ device_type := "BULB", is_on := some true, brightness := some 80 }]) :=
  C6_reporting_emits_iff_nonempty _ (by simp)

/-- Rounding a rational that is already an integer is the identity. -/
theorem pyRound_intCast (m : ℤ) : pyRound (m : ℚ) = m := by
  norm_num [pyRound]

/-- round1 is idempotent: its outputs are exact one-decimal values. -/
theorem round1_idem (x : ℚ) : round1 (round1 x) = round1 x := by
  unfold round1
  rw [show (10 : ℚ) * ((pyRound (10 * x) : ℚ) / 10) = (pyRound (10 * x) : ℚ) by ring,
    pyRound_intCast]

/-- C7 counterexample: total_brightness is not rounded to one decimal
place; a bulb update with brightness 0.25 makes the summary report the
raw 0.25. -/
theorem C7_counterexample_brightness_unrounded :
    round1 (process_analytics
        [{ device_type := "BULB", is_on := some true, brightness := some (1/4) }]).total_brightness ≠
      (process_analytics
        [{ device_type := "BULB", is_on := some true, brightness := some (1/4) }]).total_brightness := by
  simp only [process_analytics, brightness_vals_of, List.filter, List.map, List.foldl]
  norm_num [round1, pyRound, Int.fract]

/-- C7 (amended): avg_temp and avg_battery are always exact one-decimal
values (round1 fixed points), while total_brightness is the raw unrounded
sum of the on-bulb brightness values. -/
theorem C7_rounding (updates : List Update) :
    round1 (process_analytics updates).avg_temp = (process_analytics updates).avg_temp ∧
    round1 (process_analytics updates).avg_battery = (process_analytics updates).avg_battery ∧
    (process_analytics updates).total_brightness =
      (brightness_vals_of updates).foldl (· + ·) 0 := by
  refine ⟨?_, ?_, ?_⟩ <;> simp [process_analytics, round1_idem]

/-- C8 counterexample: a failing snapshot step is not caught inside the
loop body; the iteration returns the error instead of proceeding. -/
theorem C8_counterexample_no_catch :
    device_loop_body (Except.error "transient fault")
        (Device.bulb { device_id := "b1", name := "Smart Bulb", location := "Living Room" }) =
      Except.error "transient fault" := rfl

/-- C8 (amended): the device loop body contains no try/except; an
exception raised by the snapshot step propagates out of the iteration
uncaught, for every device, terminating that device's loop. -/
theorem C8_exception_propagates (d : Device) (e : String) :
    device_loop_body (Except.error e) d = Except.error e := rfl

end SmartHome
